import Mathlib

/-!
Shallow embedding of `airdrop_monitor.py` (class `AirdropMonitor`): the event
store, the price resolver `calculate_value`, the change detector
`check_status_changes`, the expiry filter `is_airdrop_expired`, the countdown
arming scan `check_upcoming_airdrops`, and the per-pass orchestration
`process_airdrops`.  Numeric values (SQLite REAL, Python float) are modelled
as exact rationals; wall-clock timestamps as natural numbers; the push
transport as an explicit delivery flag recorded with each sent notification
(the code swallows every transport exception, so callers never observe it).
-/

namespace AirdropMonitor

/-- Digit value of an ASCII digit character. -/
def digVal (c : Char) : Nat := c.toNat - 48

/-- Natural number denoted by a list of ASCII digit characters (base 10). -/
def natOfDigits (cs : List Char) : Nat := cs.foldl (fun n c => n * 10 + digVal c) 0

/-- Python `str.isdigit()` restricted to ASCII: non-empty and all digits. -/
def pyIsdigit (s : String) : Bool := !s.isEmpty && s.data.all Char.isDigit

/-- Python `str.strip()`: remove leading and trailing whitespace. -/
def pyStrip (s : String) : String :=
  String.mk (((s.data.dropWhile Char.isWhitespace).reverse.dropWhile Char.isWhitespace).reverse)

/-- The string with every `.` and `-` character removed, as in
`str(amount).replace('.', '').replace('-', '')`. -/
def stripDotsDashes (s : String) : String :=
  String.mk (s.data.filter (fun c => !(c == '.') && !(c == '-')))

/-- Python `float(s)` on plain decimal literals (optional single leading sign,
digits with at most one dot, at least one digit, nothing else): `some` of the
exact rational value on success, `none` where `float` raises `ValueError`.
The callers only reach this with strings over digits, `.` and `-` (the
`isdigit` gate in `calculate_value` has already run). -/
def pyFloatParse (s : String) : Option Rat :=
  let (neg, cs) :=
    match s.data with
    | '-' :: rest => (true, rest)
    | '+' :: rest => (false, rest)
    | cs => (false, cs)
  let intPart := cs.takeWhile Char.isDigit
  let rest := cs.dropWhile Char.isDigit
  let signed : Rat → Rat := fun q => if neg then -q else q
  match rest with
  | [] =>
    if intPart.isEmpty then none
    else some (signed (mkRat (natOfDigits intPart) 1))
  | '.' :: rest2 =>
    let frac := rest2.takeWhile Char.isDigit
    let rest3 := rest2.dropWhile Char.isDigit
    if !rest3.isEmpty then none
    else if intPart.isEmpty && frac.isEmpty then none
    else some (signed (mkRat (natOfDigits intPart * 10 ^ frac.length + natOfDigits frac) (10 ^ frac.length)))
  | _ => none

/-- One record of the price feed, as used by both branches of the payload
normalization in `fetch_api_data` and by `calculate_value`.  The numeric
fields model `item.get('price', 0)` / `item.get('dex_price', 0)`: a missing
field is the default `0`. -/
structure Item where
  token : Option String
  symbol : Option String
  address : Option String
  price : Rat
  dex_price : Rat
deriving DecidableEq

/-- Python dict lookup `prices.get(str(token), {})` followed by the
`if not token_price_info` emptiness test: `none` when the token has no entry. -/
def lookupPrice (prices : List (String × Item)) (t : String) : Option Item :=
  (prices.find? (fun p => p.1 == t)).map (fun p => p.2)

/-- The effective unit price chosen by `calculate_value`:
`price if price > 0 else dex_price` (comparisons are spelled with the
executable `Rat.blt`, which is definitionally the order on `Rat`). -/
def effectivePrice (info : Item) : Rat :=
  if Rat.blt 0 info.price then info.price else info.dex_price

/-- The amount gate of `calculate_value`:
`not (not amount or not str(amount).replace('.', '').replace('-', '').isdigit())`. -/
def amountGate (a : Option String) : Bool :=
  match a with
  | none => false
  | some s => !(s == "") && pyIsdigit (stripDotsDashes s)

/-- `AirdropMonitor.calculate_value(amount, token, prices)` (lines 139-159):
returns `(price, total_value)`, each `none` standing for Python `None`. -/
def calculateValue (amount : Option String) (token : String)
    (prices : List (String × Item)) : Option Rat × Option Rat :=
  match amount with
  | none => (none, none)
  | some s =>
    if s == "" then (none, none)
    else if !(pyIsdigit (stripDotsDashes s)) then (none, none)
    else
      match lookupPrice prices token with
      | none => (none, none)
      | some info =>
        let finalPrice := if Rat.blt 0 info.price then info.price else info.dex_price
        if !(Rat.blt 0 finalPrice) then (none, none)
        else
          match pyFloatParse s with
          | some q => (some finalPrice, some (q * finalPrice))
          | none => (some finalPrice, none)

/-- The spec's reading of "parseable as a non-negative decimal": `float(s)`
succeeds and the value is `≥ 0`. -/
def parsesAsNonnegDecimal (s : String) : Bool :=
  match pyFloatParse s with
  | some q => !(Rat.blt q 0)
  | none => false

/-- A calendar day. -/
structure Date where
  y : Nat
  m : Nat
  d : Nat
deriving DecidableEq

/-- Gregorian leap-year test, as in Python's `datetime` validation. -/
def isLeap (y : Nat) : Bool := y % 4 == 0 && (y % 100 != 0 || y % 400 == 0)

/-- Number of days in a month, used by `datetime`'s day-of-month validation. -/
def daysInMonth (y m : Nat) : Nat :=
  if m == 2 then (if isLeap y then 29 else 28)
  else if m == 4 || m == 6 || m == 9 || m == 11 then 30
  else 31

/-- Split a character list at every dash, keeping empty components (the shape
of `"2024-01-01".split('-')`). -/
def splitDashes : List Char → List (List Char)
  | [] => [[]]
  | '-' :: rest => [] :: splitDashes rest
  | c :: rest =>
    match splitDashes rest with
    | h :: t => (c :: h) :: t
    | [] => [[c]]

/-- `datetime.strptime(s, '%Y-%m-%d').date()`: exactly three dash-separated
components, a four-digit year, a one-or-two-digit month in 1..12, a
one-or-two-digit day valid for that month; `none` where `strptime` raises
`ValueError`. -/
def parseDate (s : String) : Option Date :=
  match splitDashes s.data with
  | [ys, ms, ds] =>
    if ys.length == 4 && ys.all Char.isDigit &&
       decide (1 ≤ ms.length) && decide (ms.length ≤ 2) && ms.all Char.isDigit &&
       decide (1 ≤ ds.length) && decide (ds.length ≤ 2) && ds.all Char.isDigit then
      let y := natOfDigits ys
      let m := natOfDigits ms
      let d := natOfDigits ds
      if decide (1 ≤ m) && decide (m ≤ 12) && decide (1 ≤ d) && decide (d ≤ daysInMonth y m) then
        some ⟨y, m, d⟩
      else none
    else none
  | _ => none

/-- The strict clock-time pattern `^\d{1,2}:\d{2}$` applied by
`is_airdrop_expired` (via `re.match`) to the stripped time string. -/
def isStrictHM (s : String) : Bool :=
  match s.data with
  | [h0, ':', m0, m1] => h0.isDigit && m0.isDigit && m1.isDigit
  | [h0, h1, ':', m0, m1] => h0.isDigit && h1.isDigit && m0.isDigit && m1.isDigit
  | _ => false

/-- The second half of parsing `f"{date_str} {time_str}"` with
`'%Y-%m-%d %H:%M'`: the whitespace of the format absorbs any leading
whitespace of the time part, `%H` is one or two digits valued at most 23,
`%M` is two digits with the tens digit at most 5 or a single digit, and
nothing may remain afterwards (`strptime` rejects unconverted data). -/
def strptimeMin (h : Nat) : List Char → Option (Nat × Nat)
  | ':' :: ms =>
    match ms with
    | [m0] => if m0.isDigit then some (h, digVal m0) else none
    | m0 :: m1 :: rest =>
      if m0.isDigit && m1.isDigit && decide (digVal m0 ≤ 5) && rest.isEmpty then
        some (h, digVal m0 * 10 + digVal m1)
      else none
    | [] => none
  | _ => none

/-- Hour-then-minute part of `strptime(..., '%Y-%m-%d %H:%M')` applied to the
raw time string (see `strptimeMin`). -/
def strptimeHM (s : String) : Option (Nat × Nat) :=
  match s.data.dropWhile Char.isWhitespace with
  | [] => none
  | c0 :: rest0 =>
    if !c0.isDigit then none
    else
      match rest0 with
      | [] => none
      | c1 :: rest1 =>
        if c1.isDigit then
          let h := digVal c0 * 10 + digVal c1
          if h ≤ 23 then strptimeMin h rest1 else none
        else strptimeMin (digVal c0) rest0

/-- A timezone-localized instant at second resolution (the Beijing timezone is
fixed process-wide, and Asia/Shanghai has no daylight saving, so `localize`
never fails and instants compare like local calendar values). -/
structure DateTime where
  date : Date
  sec : Nat
deriving DecidableEq

/-- Day number of a civil date (days-from-civil algorithm), used to compare
instants and to take `timedelta` differences in seconds. -/
def rataDie (dt : Date) : Int :=
  let y : Int := if dt.m ≤ 2 then (dt.y : Int) - 1 else dt.y
  let era : Int := y / 400
  let yoe : Int := y - era * 400
  let mp : Int := if dt.m > 2 then (dt.m : Int) - 3 else (dt.m : Int) + 9
  let doy : Int := (153 * mp + 2) / 5 + (dt.d : Int) - 1
  let doe : Int := yoe * 365 + yoe / 4 - yoe / 100 + doy
  era * 146097 + doe - 719468

/-- An instant as a count of seconds (`datetime.timestamp`-like, up to a
constant offset shared by all instants in the fixed timezone). -/
def toSecZ (t : DateTime) : Int := rataDie t.date * 86400 + (t.sec : Int)

/-- Date comparison `a < b`, as in `now.date() > airdrop_date`. -/
def dateLtB (a b : Date) : Bool :=
  a.y < b.y || (a.y == b.y && (a.m < b.m || (a.m == b.m && a.d < b.d)))

/-- Instant comparison `a < b`, as in `now > airdrop_datetime` for two
datetimes localized in the same timezone. -/
def dtLtB (a b : DateTime) : Bool := toSecZ a < toSecZ b

/-- `datetime.strptime(f"{date_str} {time_str}", '%Y-%m-%d %H:%M')` followed
by `BEIJING_TZ.localize`. -/
def strptimeDT (ds ts : String) : Option DateTime :=
  match parseDate ds, strptimeHM ts with
  | some d, some hm => some ⟨d, (hm.1 * 60 + hm.2) * 60⟩
  | _, _ => none

/-- `now.strftime('%Y-%m-%d')`: zero-padded two-digit field. -/
def pad2 (n : Nat) : String := if n < 10 then "0" ++ toString n else toString n

/-- `now.strftime('%Y-%m-%d')`: zero-padded four-digit year field. -/
def pad4 (n : Nat) : String :=
  if n < 10 then "000" ++ toString n
  else if n < 100 then "00" ++ toString n
  else if n < 1000 then "0" ++ toString n
  else toString n

/-- `now.strftime('%Y-%m-%d')`. -/
def formatDate (d : Date) : String := pad4 d.y ++ "-" ++ pad2 d.m ++ "-" ++ pad2 d.d

/-- One incoming event record from the data feed's `airdrops` array.  `none`
models an absent key (so `airdrop.get(k)` is `none` and `airdrop.get(k, '')`
is `getD ""`). -/
structure Event where
  token : Option String
  name : Option String
  date : Option String
  time : Option String
  amount : Option String
  points : Option String
  phase : Option Int
  type : Option String
  status : Option String
  contract_address : Option String
  chain_id : Option String
deriving DecidableEq

/-- Python `str(x)` over an optional string, as in `f"...{airdrop.get('name')}"`
and `prices.get(str(token), ...)`: `None` prints as `"None"`. -/
def pyStrOpt (o : Option String) : String :=
  match o with
  | some s => s
  | none => "None"

/-- One row of the `airdrops` table, in column order
`(id, token, name, date, time, amount, points, price, total_value, phase,
type, status, contract_address, chain_id, first_seen, last_updated,
notified_new, notified_3min)`.  Nullable columns are `Option`; the two
timestamp columns hold the wall-clock value current at the writing statement. -/
structure Row where
  id : Nat
  token : Option String
  name : Option String
  date : Option String
  time : Option String
  amount : Option String
  points : Option String
  price : Option Rat
  total_value : Option Rat
  phase : Option Int
  type : Option String
  status : Option String
  contract_address : Option String
  chain_id : Option String
  first_seen : Nat
  last_updated : Nat
  notified_new : Bool
  notified_3min : Bool
deriving DecidableEq

/-- The value stored in a `status_changes` row's `old_value`/`new_value`
column: `str()` of a string, or `str()` of a float (kept as the exact
rational it renders). -/
inductive AuditVal where
  | s (v : String)
  | n (q : Rat)
deriving DecidableEq

/-- One row of the `status_changes` audit table (its autoincrement id and
`change_time`/`notified` bookkeeping columns carry no logic and are omitted). -/
structure Audit where
  airdrop_id : Nat
  change_type : String
  old_value : AuditVal
  new_value : AuditVal
deriving DecidableEq

/-- One push notification handed to `sc_send` by `send_notification`, with the
tier glyph already prefixed to the title.  `delivered` records whether the
transport call succeeded; the code logs and swallows a failure, so nothing
downstream depends on this field. -/
structure Notif where
  title : String
  tag : String
  priority : String
  delivered : Bool
deriving DecidableEq

/-- The observable state of one run: the two SQLite tables, the notifications
sent so far, and the next `AUTOINCREMENT` id of the `airdrops` table. -/
structure St where
  rows : List Row
  audits : List Audit
  sent : List Notif
  nextId : Nat
deriving DecidableEq

/-- Thresholds and reminder constants imported from `config.py` (not part of
the source tree, so kept abstract as parameters). -/
structure Config where
  highThreshold : Rat
  mediumThreshold : Rat
  reminderCount : Nat
deriving DecidableEq

/-- SQL equality on a nullable TEXT column: comparison with NULL never
matches. -/
def sqlEqS (a b : Option String) : Bool :=
  match a, b with
  | some x, some y => x == y
  | _, _ => false

/-- SQL equality on a nullable INTEGER column: comparison with NULL never
matches. -/
def sqlEqI (a b : Option Int) : Bool :=
  match a, b with
  | some x, some y => x == y
  | _, _ => false

/-- `SELECT * FROM airdrops WHERE id = ?` (first match; ids are unique in the
real table). -/
def lookupRow (rows : List Row) (id : Nat) : Option Row :=
  rows.find? (fun r => r.id == id)

/-- `AirdropMonitor.get_airdrop_by_key(token, date, phase)` (lines 161-168). -/
def getByKey (rows : List Row) (t d : Option String) (ph : Option Int) : Option Row :=
  rows.find? (fun r => sqlEqS r.token t && sqlEqS r.date d && sqlEqI r.phase ph)

/-- `AirdropMonitor.insert_new_airdrop(airdrop, price, total_value)`
(lines 170-193): insert with the two notified flags at their 0 defaults and
both timestamps at the current time; returns the fresh rowid. -/
def insertNewAirdrop (wall : Nat) (st : St) (a : Event) (p tv : Option Rat) : St × Nat :=
  let r : Row :=
    { id := st.nextId, token := a.token, name := a.name, date := a.date,
      time := some (a.time.getD ""), amount := some (a.amount.getD ""),
      points := some (a.points.getD ""), price := p, total_value := tv,
      phase := a.phase, type := a.type, status := a.status,
      contract_address := a.contract_address, chain_id := a.chain_id,
      first_seen := wall, last_updated := wall,
      notified_new := false, notified_3min := false }
  ({ st with rows := st.rows ++ [r], nextId := st.nextId + 1 }, st.nextId)

/-- `AirdropMonitor.update_airdrop(airdrop_id, airdrop, price, total_value)`
(lines 195-216): overwrite the mutable columns of every row matching the id
and bump `last_updated`. -/
def updateAirdrop (st : St) (id : Nat) (a : Event) (p tv : Option Rat) (wall : Nat) : St :=
  { st with rows := st.rows.map (fun r =>
      if r.id == id then
        { r with name := a.name, time := some (a.time.getD ""),
                 amount := some (a.amount.getD ""), points := some (a.points.getD ""),
                 price := p, total_value := tv, type := a.type, status := a.status,
                 contract_address := a.contract_address, chain_id := a.chain_id,
                 last_updated := wall }
      else r) }

/-- `AirdropMonitor.record_status_change(airdrop_id, change_type, old, new)`
(lines 218-226): append-only insert into `status_changes`. -/
def recordStatusChange (st : St) (id : Nat) (ct : String) (ov nv : AuditVal) : St :=
  { st with audits := st.audits ++ [⟨id, ct, ov, nv⟩] }

/-- `UPDATE airdrops SET notified_new = 1 WHERE id = ?` (line 307). -/
def markNotifiedNew (st : St) (id : Nat) : St :=
  { st with rows := st.rows.map (fun r =>
      if r.id == id then { r with notified_new := true } else r) }

/-- `UPDATE airdrops SET notified_3min = 1 WHERE id = ?` (line 505). -/
def markNotified3min (st : St) (id : Nat) : St :=
  { st with rows := st.rows.map (fun r =>
      if r.id == id then { r with notified_3min := true } else r) }

/-- `AirdropMonitor.send_notification(title, content, tag, priority)`
(lines 228-244): prefix the tier glyph, attempt the push, swallow any
transport failure (the `delivery` oracle says whether `sc_send` succeeded;
either way control returns normally). -/
def sendNotification (st : St) (delivery : Bool) (title tag priority : String) : St :=
  let t :=
    if priority == "high" then "🔴 " ++ title
    else if priority == "medium" then "🟡 " ++ title
    else if priority == "urgent" then "🚨 " ++ title
    else title
  { st with sent := st.sent ++ [⟨t, tag, priority, delivery⟩] }

/-- `AirdropMonitor.get_priority_by_value(total_value)` (lines 315-324). -/
def getPriorityByValue (cfg : Config) (tv : Option Rat) : String :=
  match tv with
  | none => "normal"
  | some v =>
    if !(Rat.blt v cfg.highThreshold) then "high"
    else if !(Rat.blt v cfg.mediumThreshold) then "medium"
    else "normal"

/-- `AirdropMonitor.check_and_notify_new(airdrop, price, total_value)`
(lines 285-313): on an unseen identity insert, notify (the result of the push
is ignored), and set `notified_new = 1`; otherwise return the existing rowid.
Returns `(state, airdrop_id, is_new)`. -/
def checkAndNotifyNew (cfg : Config) (wall : Nat) (delivery : Bool) (st : St)
    (a : Event) (p tv : Option Rat) : St × Nat × Bool :=
  match getByKey st.rows a.token a.date a.phase with
  | some r => (st, r.id, false)
  | none =>
    let ins := insertNewAirdrop wall st a p tv
    let st2 := sendNotification ins.1 delivery ("新空投发现: " ++ pyStrOpt a.name)
      "新空投" (getPriorityByValue cfg tv)
    (markNotifiedNew st2 ins.2, ins.2, true)

/-- Two-decimal fixed-point rendering used by `f"...{v:.2f}"` (rounding to
nearest, ties to even, applied to the exact rational value; the fractional
part of `100 q` is compared with one half through the remainder of the
floor division of its numerator). -/
def fmt2 (q : Rat) : String :=
  let scaled : Rat := q * 100
  let fl : Int := scaled.num.fdiv scaled.den
  let rem : Int := scaled.num - fl * scaled.den
  let r : Int :=
    if 2 * rem > (scaled.den : Int) then fl + 1
    else if 2 * rem < (scaled.den : Int) then fl
    else if fl % 2 == 0 then fl else fl + 1
  let a := r.natAbs
  (if r < 0 then "-" else "") ++ toString (a / 100) ++ "." ++ pad2 (a % 100)

/-- One entry of the `changes` list accumulated by `check_status_changes`:
its `type`, `old`, `new` and `message` keys (`old`/`new` are `None` in the
value branch, a raw string elsewhere). -/
structure ChangeRec where
  ctype : String
  old : Option AuditVal
  new : Option AuditVal
  message : String
deriving DecidableEq

/-- The `time` block of `check_status_changes` (lines 330-353): notify when
the stripped values differ and the incoming stripped value is non-empty,
with the changed-time or newly-confirmed message; one audit insert per
notification.  Returns `(changes, audit rows without their id)`. -/
def timeBlock (old : Row) (a : Event) : List ChangeRec × List (String × AuditVal × AuditVal) :=
  let oldTime := old.time.getD ""
  let newTime := a.time.getD ""
  let oldN := pyStrip oldTime
  let newN := pyStrip newTime
  if oldN != newN && newN != "" then
    if oldN != "" then
      ([⟨"time_updated", some (.s oldTime), some (.s newTime),
         "⚠️ 时间已变更: " ++ oldTime ++ " → " ++ newTime⟩],
       [("time_updated", .s oldTime, .s newTime)])
    else
      ([⟨"time_updated", some (.s oldTime), some (.s newTime),
         "时间已确定: " ++ newTime⟩],
       [("time_updated", .s oldTime, .s newTime)])
  else ([], [])

/-- The `amount` block of `check_status_changes` (lines 357-370): notify only
on the empty-to-non-empty reveal. -/
def amountBlock (old : Row) (a : Event) : List ChangeRec × List (String × AuditVal × AuditVal) :=
  let oldAmount := old.amount.getD ""
  let newAmount := a.amount.getD ""
  if pyStrip oldAmount == "" && pyStrip newAmount != "" then
    ([⟨"amount_updated", some (.s oldAmount), some (.s newAmount),
       "数量已确定: " ++ newAmount⟩],
     [("amount_updated", .s oldAmount, .s newAmount)])
  else ([], [])

/-- The `points` block of `check_status_changes` (lines 372-385): notify only
on the empty-to-non-empty reveal. -/
def pointsBlock (old : Row) (a : Event) : List ChangeRec × List (String × AuditVal × AuditVal) :=
  let oldPoints := old.points.getD ""
  let newPoints := a.points.getD ""
  if pyStrip oldPoints == "" && pyStrip newPoints != "" then
    ([⟨"points_updated", some (.s oldPoints), some (.s newPoints),
       "分数门槛已确定: " ++ newPoints⟩],
     [("points_updated", .s oldPoints, .s newPoints)])
  else ([], [])

/-- The `total_value` block of `check_status_changes` (lines 387-396): notify
only when the stored value was NULL and the new value is a positive number. -/
def valueBlock (old : Row) (newTv : Option Rat) : List ChangeRec × List (String × AuditVal × AuditVal) :=
  match old.total_value, newTv with
  | none, some v =>
    if Rat.blt 0 v then
      ([⟨"value_updated", none, some (.n v), "预估价值已确定: $" ++ fmt2 v⟩],
       [("value_updated", .s "None", .n v)])
    else ([], [])
  | _, _ => ([], [])

/-- `AirdropMonitor.check_status_changes(airdrop_id, old_data, new_airdrop,
new_price, new_total_value)` (lines 326-398), with the audit rows it inserts
returned alongside the change list (`new_price` is accepted and unused, as in
the source; price changes are intentionally not monitored). -/
def checkStatusChanges (old : Row) (a : Event) (newPrice newTv : Option Rat) :
    List ChangeRec × List (String × AuditVal × AuditVal) :=
  let t := timeBlock old a
  let am := amountBlock old a
  let pt := pointsBlock old a
  let v := valueBlock old newTv
  (t.1 ++ am.1 ++ pt.1 ++ v.1, t.2 ++ am.2 ++ pt.2 ++ v.2)

/-- `AirdropMonitor.notify_status_changes(airdrop, changes, price, total_value)`
(lines 400-419): one batched status-update notification when the change list
is non-empty. -/
def notifyStatusChanges (cfg : Config) (delivery : Bool) (st : St) (a : Event)
    (chs : List ChangeRec) (tv : Option Rat) : St :=
  if chs.isEmpty then st
  else
    sendNotification st delivery ("状态更新: " ++ pyStrOpt a.name) "状态变化"
      (getPriorityByValue cfg tv)

/-- `AirdropMonitor.is_airdrop_expired(airdrop)` (lines 513-559), with `now`
made an explicit argument. -/
def isAirdropExpired (a : Event) (now : DateTime) : Bool :=
  match a.date with
  | none => false
  | some ds =>
    if ds == "" then false
    else
      match parseDate ds with
      | none => false
      | some ad =>
        let ts := a.time.getD ""
        if ts != "" && pyStrip ts != "" then
          if isStrictHM (pyStrip ts) then
            match strptimeDT ds ts with
            | some dt => dtLtB dt now
            | none => dateLtB ad now.date
          else dateLtB ad now.date
        else dateLtB ad now.date

/-- `AirdropMonitor.check_upcoming_airdrops()` (lines 421-456): today's rows
with a non-empty, non-NULL time and `notified_3min = 0`, narrowed to those
whose parsed start lies strictly in the next ten minutes; rows whose
`date time` string fails to parse are skipped. -/
def checkUpcomingAirdrops (st : St) (now : DateTime) : List Row :=
  (st.rows.filter (fun r =>
      sqlEqS r.date (some (formatDate now.date)) &&
      (match r.time with
       | some t => !(t == "")
       | none => false) &&
      r.notified_3min == false)).filterMap (fun r =>
    match strptimeDT (r.date.getD "") (r.time.getD "") with
    | some dt =>
      if 0 < toSecZ dt - toSecZ now && toSecZ dt - toSecZ now ≤ 600 then some r
      else none
    | none => none)

/-- `AirdropMonitor.wait_and_send_reminders(airdrop_info)` (lines 458-507) as
a state transformer: the blocking sleeps are real time, not state, so the
observable effect is the burst of urgent reminders followed by
`notified_3min = 1` (reminder bodies restate live countdown values and are
not inspected by any property). -/
def waitAndSendReminders (cfg : Config) (delivery : Bool) (st : St) (r : Row) : St :=
  let st2 := (List.range cfg.reminderCount).foldl
    (fun s i =>
      sendNotification s delivery
        ("🚨 空投提醒 (" ++ toString (i + 1) ++ "/" ++ toString cfg.reminderCount ++ "): "
          ++ pyStrOpt r.name)
        "紧急提醒" "urgent")
    st
  markNotified3min st2 r.id

/-- The per-event body of `process_airdrops` (lines 575-604): expiry skip,
valuation, new-event path, and otherwise change detection, store update and
batched notification. -/
def processOne (cfg : Config) (prices : List (String × Item)) (now : DateTime)
    (wall : Nat) (delivery : Bool) (st : St) (a : Event) : St :=
  if isAirdropExpired a now then st
  else
    let pv := calculateValue a.amount (pyStrOpt a.token) prices
    let res := checkAndNotifyNew cfg wall delivery st a pv.1 pv.2
    if res.2.2 then res.1
    else
      match getByKey res.1.rows a.token a.date a.phase with
      | none => res.1
      | some old =>
        let cr := checkStatusChanges old a pv.1 pv.2
        let st2 := cr.2.foldl (fun s rec => recordStatusChange s res.2.1 rec.1 rec.2.1 rec.2.2) res.1
        let st3 := updateAirdrop st2 res.2.1 a pv.1 pv.2 wall
        notifyStatusChanges cfg delivery st3 a cr.1 pv.2

/-- The per-pass event loop of `process_airdrops` (lines 566-604): keep
today's events and fold `processOne` over them (fetching, the upcoming scan
and the reminder loop are separate operations). -/
def processAirdrops (cfg : Config) (prices : List (String × Item)) (now : DateTime)
    (wall : Nat) (delivery : Bool) (st : St) (events : List Event) : St :=
  (events.filter (fun a => a.date == some (formatDate now.date))).foldl
    (processOne cfg prices now wall delivery) st

/-- Every state-mutating operation the program performs against the store,
including a whole polling pass and a reminder burst, for stating invariants
over arbitrary operation sequences. -/
inductive Op where
  | opInsert (wall : Nat) (a : Event) (p tv : Option Rat)
  | opUpdate (id : Nat) (a : Event) (p tv : Option Rat) (wall : Nat)
  | opMarkNew (id : Nat)
  | opMark3min (id : Nat)
  | opRecord (id : Nat) (ct : String) (ov nv : AuditVal)
  | opSend (delivery : Bool) (title tag priority : String)
  | opPass (cfg : Config) (prices : List (String × Item)) (now : DateTime)
      (wall : Nat) (delivery : Bool) (events : List Event)
  | opReminder (cfg : Config) (delivery : Bool) (r : Row)

/-- Interpretation of one operation. -/
def applyOp (st : St) : Op → St
  | .opInsert wall a p tv => (insertNewAirdrop wall st a p tv).1
  | .opUpdate id a p tv wall => updateAirdrop st id a p tv wall
  | .opMarkNew id => markNotifiedNew st id
  | .opMark3min id => markNotified3min st id
  | .opRecord id ct ov nv => recordStatusChange st id ct ov nv
  | .opSend delivery title tag priority => sendNotification st delivery title tag priority
  | .opPass cfg prices now wall delivery events =>
      processAirdrops cfg prices now wall delivery st events
  | .opReminder cfg delivery r => waitAndSendReminders cfg delivery st r

/-- Interpretation of an operation sequence. -/
def applyOps (st : St) (ops : List Op) : St := ops.foldl applyOp st

/-- Python `a or b` for an optional-string left operand: keep `a` when it is
truthy (present and non-empty), otherwise evaluate to `b`. -/
def pyOrS (a : Option String) (b : String) : String :=
  match a with
  | some s => if s == "" then b else s
  | none => b

/-- The key expression of the list branch of the price normalization
(line 122): `item.get('token') or item.get('symbol') or str(item.get('address', ''))`. -/
def tokenKeyOf (it : Item) : String :=
  pyOrS it.token (pyOrS it.symbol (it.address.getD ""))

/-- Python dict assignment `d[k] = v`: replace an existing binding in place,
otherwise append in insertion order. -/
def dictInsert (m : List (String × Item)) (k : String) (v : Item) : List (String × Item) :=
  if m.any (fun p => p.1 == k) then m.map (fun p => if p.1 == k then (k, v) else p)
  else m ++ [(k, v)]

/-- The list branch of the price-payload normalization in `fetch_api_data`
(lines 117-124): key each record by `tokenKeyOf` and skip records whose key
is empty. -/
def buildPricesDict (items : List Item) : List (String × Item) :=
  items.foldl
    (fun m it =>
      let k := tokenKeyOf it
      if k == "" then m else dictInsert m k it)
    []

/-- Modelled from the spec's words for the same normalization: "build the
mapping by extracting, per record, the first of (explicit token field,
symbol field, address field) that is present and non-empty, skipping records
with none of these". -/
def firstPresentNonEmpty : List (Option String) → Option String
  | [] => none
  | none :: rest => firstPresentNonEmpty rest
  | some s :: rest => if s == "" then firstPresentNonEmpty rest else some s

/-- The spec's wording of `buildPricesDict`, to be proved equal to it. -/
def buildPricesDictSpec (items : List Item) : List (String × Item) :=
  items.foldl
    (fun m it =>
      match firstPresentNonEmpty [it.token, it.symbol, it.address] with
      | none => m
      | some k => dictInsert m k it)
    []

/-- The expiry case analysis as the spec states it: unparseable date is never
expired; an empty or non-`H:MM`-shaped time compares dates only; a
strictly-shaped time compares full instants, falling back to the date-only
comparison when the timestamp construction fails. -/
def isAirdropExpiredSpec (a : Event) (now : DateTime) : Bool :=
  match a.date with
  | none => false
  | some ds =>
    match parseDate ds with
    | none => false
    | some ad =>
      let t := pyStrip (a.time.getD "")
      if t == "" then dateLtB ad now.date
      else if !(isStrictHM t) then dateLtB ad now.date
      else
        match strptimeDT ds (a.time.getD "") with
        | some dt => dtLtB dt now
        | none => dateLtB ad now.date

/-- Configuration used by the concrete scenarios (thresholds 1000 / 100 and a
three-reminder burst). -/
def cfg0 : Config := ⟨1000, 100, 3⟩

/-- First observation of identity `(TKN, 2024-01-01, 1)`: empty time, empty
amount. -/
def ev1 : Event :=
  { token := some "TKN", name := some "TKN Airdrop", date := some "2024-01-01",
    time := some "", amount := some "", points := some "", phase := some 1,
    type := some "alpha", status := some "announced",
    contract_address := none, chain_id := none }

/-- Second observation of the same identity: time `10:00`, amount `50`. -/
def ev2 : Event := { ev1 with time := some "10:00", amount := some "50" }

/-- Price feed for the scenario: `TKN` has primary price `2.0`. -/
def tknPrices : List (String × Item) := [("TKN", ⟨some "TKN", none, none, 2, 0⟩)]

/-- Wall clock of the first pass: 2024-01-01 08:00. -/
def now1 : DateTime := ⟨⟨2024, 1, 1⟩, 8 * 3600⟩

/-- Wall clock of the second pass: 2024-01-01 09:00. -/
def now2 : DateTime := ⟨⟨2024, 1, 1⟩, 9 * 3600⟩

/-- The empty store (SQLite autoincrement rowids start at 1). -/
def st0 : St := ⟨[], [], [], 1⟩

/-- State after the first pass of the two-pass scenario. -/
def passOne : St := processAirdrops cfg0 tknPrices now1 100 true st0 [ev1]

/-- State after the second pass of the two-pass scenario. -/
def passTwo : St := processAirdrops cfg0 tknPrices now2 200 true passOne [ev2]

/-- The row stored by the first pass of the scenario (rowid 1, flags
`notified_new = 1`, `notified_3min = 0`, `total_value` NULL). -/
def rowW : Row :=
  { id := 1, token := some "TKN", name := some "TKN Airdrop", date := some "2024-01-01",
    time := some "", amount := some "", points := some "", price := none,
    total_value := none, phase := some 1, type := some "alpha",
    status := some "announced", contract_address := none, chain_id := none,
    first_seen := 100, last_updated := 100, notified_new := true, notified_3min := false }

/-- The row that `check_and_notify_new` leaves in the store for a previously
unseen identity: the freshly inserted record with `notified_new` already
set. -/
def insertedRow (st : St) (a : Event) (p tv : Option Rat) (w : Nat) : Row :=
  { id := st.nextId, token := a.token, name := a.name, date := a.date,
    time := some (a.time.getD ""), amount := some (a.amount.getD ""),
    points := some (a.points.getD ""), price := p, total_value := tv,
    phase := a.phase, type := a.type, status := a.status,
    contract_address := a.contract_address, chain_id := a.chain_id,
    first_seen := w, last_updated := w, notified_new := true, notified_3min := false }

/-- The two notified flags of `r2` dominate those of `r`: a set flag stays
set. -/
def flagLe (r r2 : Row) : Prop :=
  (r.notified_new = true → r2.notified_new = true) ∧
  (r.notified_3min = true → r2.notified_3min = true)

/-- Every row reachable by id in `s` is still reachable in `t` with its
notified flags only ever raised. -/
def rowsMono (s t : List Row) : Prop :=
  ∀ id r, lookupRow s id = some r → ∃ r2, lookupRow t id = some r2 ∧ flagLe r r2

section Theorems

attribute [local semireducible] Rat.mul Rat.add Rat.sub

theorem flagLe_refl (r : Row) : flagLe r r := ⟨fun h => h, fun h => h⟩

theorem flagLe_trans {r s t : Row} (h1 : flagLe r s) (h2 : flagLe s t) : flagLe r t :=
  ⟨fun h => h2.1 (h1.1 h), fun h => h2.2 (h1.2 h)⟩

theorem rowsMono_refl (s : List Row) : rowsMono s s :=
  fun _ r h => ⟨r, h, flagLe_refl r⟩

theorem rowsMono_trans {s t u : List Row} (h1 : rowsMono s t) (h2 : rowsMono t u) :
    rowsMono s u := by
  intro id r h
  obtain ⟨r2, hr2, hf2⟩ := h1 id r h
  obtain ⟨r3, hr3, hf3⟩ := h2 id r2 hr2
  exact ⟨r3, hr3, flagLe_trans hf2 hf3⟩

theorem lookupRow_append (s l : List Row) (id : Nat) (r : Row)
    (h : lookupRow s id = some r) : lookupRow (s ++ l) id = some r := by
  induction s with
  | nil => simp [lookupRow] at h
  | cons hd tl ih =>
    unfold lookupRow at h ⊢
    rw [List.cons_append, List.find?]
    rw [List.find?] at h
    cases hp : (hd.id == id) with
    | true => rw [hp] at h; simpa using h
    | false => rw [hp] at h; exact ih h

theorem rowsMono_append (s l : List Row) : rowsMono s (s ++ l) :=
  fun id r h => ⟨r, lookupRow_append s l id r h, flagLe_refl r⟩

theorem lookupRow_map_keyed (rows : List Row) (id id2 : Nat) (g : Row → Row)
    (hid : ∀ x, (g x).id = x.id) :
    lookupRow (rows.map (fun x => if x.id == id then g x else x)) id2 =
      Option.map (fun x => if x.id == id then g x else x) (lookupRow rows id2) := by
  induction rows with
  | nil => rfl
  | cons hd tl ih =>
    unfold lookupRow at ih ⊢
    rw [List.map_cons, List.find?, List.find?]
    have hsame : (if hd.id == id then g hd else hd).id = hd.id := by
      split
      · exact hid hd
      · rfl
    rw [hsame]
    cases hp : (hd.id == id2) with
    | true => rfl
    | false => exact ih

theorem rowsMono_mapUpd (s : List Row) (id : Nat) (g : Row → Row)
    (hid : ∀ x, (g x).id = x.id) (hflag : ∀ x, flagLe x (g x)) :
    rowsMono s (s.map (fun x => if x.id == id then g x else x)) := by
  intro id2 r h
  rw [lookupRow_map_keyed s id id2 g hid, h]
  refine ⟨if r.id == id then g r else r, rfl, ?_⟩
  split
  · exact hflag r
  · exact flagLe_refl r

theorem notifyStatusChanges_rows (cfg : Config) (d : Bool) (s : St) (a : Event)
    (chs : List ChangeRec) (tv : Option Rat) :
    (notifyStatusChanges cfg d s a chs tv).rows = s.rows := by
  unfold notifyStatusChanges
  split <;> rfl

theorem recordFold_rows (l : List (String × AuditVal × AuditVal)) (s : St) (id : Nat) :
    (l.foldl (fun s rec => recordStatusChange s id rec.1 rec.2.1 rec.2.2) s).rows = s.rows := by
  induction l generalizing s with
  | nil => rfl
  | cons hd tl ih => rw [List.foldl_cons, ih]; rfl

theorem sendFold_rows (l : List Nat) (d : Bool) (f : Nat → String) (tg pr : String) (s : St) :
    (l.foldl (fun s i => sendNotification s d (f i) tg pr) s).rows = s.rows := by
  induction l generalizing s with
  | nil => rfl
  | cons hd tl ih => rw [List.foldl_cons, ih]; rfl

theorem sendNotification_rows (s : St) (d : Bool) (t tg pr : String) :
    (sendNotification s d t tg pr).rows = s.rows := rfl

theorem markNotifiedNew_rows (s : St) (id : Nat) :
    (markNotifiedNew s id).rows =
      s.rows.map (fun x => if x.id == id then { x with notified_new := true } else x) := rfl

theorem markNotified3min_rows (s : St) (id : Nat) :
    (markNotified3min s id).rows =
      s.rows.map (fun x => if x.id == id then { x with notified_3min := true } else x) := rfl

theorem updateAirdrop_rows (s : St) (id : Nat) (a : Event) (p tv : Option Rat) (w : Nat) :
    (updateAirdrop s id a p tv w).rows =
      s.rows.map (fun x =>
        if x.id == id then
          { x with name := a.name, time := some (a.time.getD ""),
                   amount := some (a.amount.getD ""), points := some (a.points.getD ""),
                   price := p, total_value := tv, type := a.type, status := a.status,
                   contract_address := a.contract_address, chain_id := a.chain_id,
                   last_updated := w }
        else x) := rfl

theorem checkAndNotifyNew_mono (cfg : Config) (wall : Nat) (d : Bool) (st : St)
    (a : Event) (p tv : Option Rat) :
    rowsMono st.rows (checkAndNotifyNew cfg wall d st a p tv).1.rows := by
  unfold checkAndNotifyNew
  cases hk : getByKey st.rows a.token a.date a.phase with
  | some r0 => exact rowsMono_refl _
  | none =>
    dsimp only
    rw [markNotifiedNew_rows, sendNotification_rows]
    exact rowsMono_trans (rowsMono_append st.rows _)
      (rowsMono_mapUpd _ st.nextId (fun r => { r with notified_new := true })
        (fun x => rfl) (fun x => ⟨fun _ => rfl, fun h => h⟩))

theorem processOne_mono (cfg : Config) (prices : List (String × Item)) (now : DateTime)
    (wall : Nat) (d : Bool) (st : St) (a : Event) :
    rowsMono st.rows (processOne cfg prices now wall d st a).rows := by
  unfold processOne
  split
  · exact rowsMono_refl _
  · dsimp only
    refine @rowsMono_trans st.rows
      ((checkAndNotifyNew cfg wall d st a
        (calculateValue a.amount (pyStrOpt a.token) prices).1
        (calculateValue a.amount (pyStrOpt a.token) prices).2).1.rows) _
      (checkAndNotifyNew_mono cfg wall d st a _ _) ?_
    split
    · exact rowsMono_refl _
    · split
      · exact rowsMono_refl _
      · rw [notifyStatusChanges_rows, updateAirdrop_rows, recordFold_rows]
        exact rowsMono_mapUpd _ _ _ (fun x => rfl) (fun x => ⟨fun h => h, fun h => h⟩)

theorem processAirdrops_mono (cfg : Config) (prices : List (String × Item)) (now : DateTime)
    (wall : Nat) (d : Bool) (st : St) (events : List Event) :
    rowsMono st.rows (processAirdrops cfg prices now wall d st events).rows := by
  unfold processAirdrops
  generalize (events.filter (fun a => a.date == some (formatDate now.date))) = l
  induction l generalizing st with
  | nil => exact rowsMono_refl _
  | cons hd tl ih =>
    rw [List.foldl_cons]
    exact rowsMono_trans (processOne_mono cfg prices now wall d st hd) (ih _)

theorem applyOp_mono (st : St) (op : Op) : rowsMono st.rows (applyOp st op).rows := by
  cases op with
  | opInsert wall a p tv => exact rowsMono_append _ _
  | opUpdate id a p tv wall =>
    exact rowsMono_mapUpd _ _ _ (fun x => rfl) (fun x => ⟨fun h => h, fun h => h⟩)
  | opMarkNew id =>
    exact rowsMono_mapUpd _ _ _ (fun x => rfl) (fun x => ⟨fun _ => rfl, fun h => h⟩)
  | opMark3min id =>
    exact rowsMono_mapUpd _ _ _ (fun x => rfl) (fun x => ⟨fun h => h, fun _ => rfl⟩)
  | opRecord id ct ov nv => exact rowsMono_refl _
  | opSend d title tg pr => exact rowsMono_refl _
  | opPass cfg prices now wall d events => exact processAirdrops_mono cfg prices now wall d st events
  | opReminder cfg d r =>
    show rowsMono st.rows (waitAndSendReminders cfg d st r).rows
    unfold waitAndSendReminders
    rw [markNotified3min_rows, sendFold_rows]
    exact rowsMono_mapUpd _ _ _ (fun x => rfl) (fun x => ⟨fun h => h, fun _ => rfl⟩)

theorem applyOps_mono (ops : List Op) (st : St) : rowsMono st.rows (applyOps st ops).rows := by
  induction ops generalizing st with
  | nil => exact rowsMono_refl _
  | cons hd tl ih =>
    exact rowsMono_trans (applyOp_mono st hd) (ih (applyOp st hd))

theorem amountBlock_filter (old : Row) (a : Event) (t : String) (h : t ≠ "amount_updated") :
    (amountBlock old a).1.filter (fun c => c.ctype == t) = [] ∧
    (amountBlock old a).2.filter (fun p => p.1 == t) = [] := by
  unfold amountBlock
  constructor <;> (dsimp only; split <;> simp [Ne.symm h])

theorem pointsBlock_filter (old : Row) (a : Event) (t : String) (h : t ≠ "points_updated") :
    (pointsBlock old a).1.filter (fun c => c.ctype == t) = [] ∧
    (pointsBlock old a).2.filter (fun p => p.1 == t) = [] := by
  unfold pointsBlock
  constructor <;> (dsimp only; split <;> simp [Ne.symm h])

theorem valueBlock_filter (old : Row) (tv : Option Rat) (t : String) (h : t ≠ "value_updated") :
    (valueBlock old tv).1.filter (fun c => c.ctype == t) = [] ∧
    (valueBlock old tv).2.filter (fun p => p.1 == t) = [] := by
  unfold valueBlock
  constructor <;> (dsimp only; split <;> (try split) <;> simp [Ne.symm h])

theorem timeBlock_filter (old : Row) (a : Event) (t : String) (h : t ≠ "time_updated") :
    (timeBlock old a).1.filter (fun c => c.ctype == t) = [] ∧
    (timeBlock old a).2.filter (fun p => p.1 == t) = [] := by
  unfold timeBlock
  constructor <;> (dsimp only; split <;> (try split) <;> simp [Ne.symm h])

/-- C3: in the KNOWN state the change detector emits a time change exactly
when the stored and incoming times differ after whitespace normalization and
the normalized incoming time is non-empty; each emission is a single change
record and writes a single `time_updated` audit row, and the message uses the
newly-confirmed phrasing when the stored normalized time was empty and the
changed-time phrasing otherwise. -/
theorem time_change_policy (old : Row) (a : Event) (np tv : Option Rat) :
    (checkStatusChanges old a np tv).1.filter (fun c => c.ctype == "time_updated") =
      (if pyStrip (old.time.getD "") ≠ pyStrip (a.time.getD "") ∧
          pyStrip (a.time.getD "") ≠ "" then
        [⟨"time_updated", some (.s (old.time.getD "")), some (.s (a.time.getD "")),
          if pyStrip (old.time.getD "") ≠ "" then
            "⚠️ 时间已变更: " ++ old.time.getD "" ++ " → " ++ a.time.getD ""
          else "时间已确定: " ++ a.time.getD ""⟩]
      else []) ∧
    (checkStatusChanges old a np tv).2.filter (fun p => p.1 == "time_updated") =
      (if pyStrip (old.time.getD "") ≠ pyStrip (a.time.getD "") ∧
          pyStrip (a.time.getD "") ≠ "" then
        [("time_updated", AuditVal.s (old.time.getD ""), AuditVal.s (a.time.getD ""))]
      else []) := by
  have ham := amountBlock_filter old a "time_updated" (by decide)
  have hpt := pointsBlock_filter old a "time_updated" (by decide)
  have hvl := valueBlock_filter old tv "time_updated" (by decide)
  constructor
  · simp only [checkStatusChanges, List.filter_append, ham.1, hpt.1, hvl.1, List.append_nil]
    rw [timeBlock]
    by_cases hne : pyStrip (old.time.getD "") = pyStrip (a.time.getD "")
    · simp [hne]
    · by_cases hemp : pyStrip (a.time.getD "") = ""
      · simp [hne, hemp]
      · by_cases holdemp : pyStrip (old.time.getD "") = ""
        · simp [hne, hemp, holdemp, Ne.symm hemp]
        · simp [hne, hemp, holdemp, Ne.symm hemp]
  · simp only [checkStatusChanges, List.filter_append, ham.2, hpt.2, hvl.2, List.append_nil]
    rw [timeBlock]
    by_cases hne : pyStrip (old.time.getD "") = pyStrip (a.time.getD "")
    · simp [hne]
    · by_cases hemp : pyStrip (a.time.getD "") = ""
      · simp [hne, hemp]
      · by_cases holdemp : pyStrip (old.time.getD "") = ""
        · simp [hne, hemp, holdemp, Ne.symm hemp]
        · simp [hne, hemp, holdemp, Ne.symm hemp]

/-- C4: in the KNOWN state the change detector emits an amount change exactly
when the stored normalized amount was empty and the incoming normalized
amount is non-empty (one change record and one `amount_updated` audit row in
that case); a non-empty-to-non-empty amount transition therefore produces no
amount change and no audit record. -/
theorem amount_change_policy (old : Row) (a : Event) (np tv : Option Rat) :
    (checkStatusChanges old a np tv).1.filter (fun c => c.ctype == "amount_updated") =
      (if pyStrip (old.amount.getD "") = "" ∧ pyStrip (a.amount.getD "") ≠ "" then
        [⟨"amount_updated", some (.s (old.amount.getD "")), some (.s (a.amount.getD "")),
          "数量已确定: " ++ a.amount.getD ""⟩]
      else []) ∧
    (checkStatusChanges old a np tv).2.filter (fun p => p.1 == "amount_updated") =
      (if pyStrip (old.amount.getD "") = "" ∧ pyStrip (a.amount.getD "") ≠ "" then
        [("amount_updated", AuditVal.s (old.amount.getD ""), AuditVal.s (a.amount.getD ""))]
      else []) := by
  have htm := timeBlock_filter old a "amount_updated" (by decide)
  have hpt := pointsBlock_filter old a "amount_updated" (by decide)
  have hvl := valueBlock_filter old tv "amount_updated" (by decide)
  constructor
  · simp only [checkStatusChanges, List.filter_append, htm.1, hpt.1, hvl.1,
      List.nil_append, List.append_nil]
    rw [amountBlock]
    by_cases hoe : pyStrip (old.amount.getD "") = ""
    · by_cases hne : pyStrip (a.amount.getD "") = ""
      · simp [hoe, hne]
      · simp [hoe, hne]
    · simp [hoe]
  · simp only [checkStatusChanges, List.filter_append, htm.2, hpt.2, hvl.2,
      List.nil_append, List.append_nil]
    rw [amountBlock]
    by_cases hoe : pyStrip (old.amount.getD "") = ""
    · by_cases hne : pyStrip (a.amount.getD "") = ""
      · simp [hoe, hne]
      · simp [hoe, hne]
    · simp [hoe]

/-- C6: the flags `notified_new` and `notified_3min` are monotone — under any
sequence of the system's operations (inserts, updates, flag marks, audit
inserts, notifications, whole polling passes, reminder bursts, in any order,
including replays) a stored row keeps being found under its id and a flag
that was true is still true. -/
theorem notified_flags_monotone (ops : List Op) (st : St) (id : Nat) (r : Row)
    (h : lookupRow st.rows id = some r) :
    ∃ r2, lookupRow (applyOps st ops).rows id = some r2 ∧
      (r.notified_new = true → r2.notified_new = true) ∧
      (r.notified_3min = true → r2.notified_3min = true) := by
  obtain ⟨r2, hr2, hf⟩ := applyOps_mono ops st id r h
  exact ⟨r2, hr2, hf.1, hf.2⟩

/-- Witness: replaying the second pass of the scenario and a reminder mark on
the stored row keeps its `notified_new` flag set. -/
theorem notified_flags_monotone_witness :
    ∃ r2, lookupRow (applyOps passOne
        [Op.opPass cfg0 tknPrices now2 200 true [ev2], Op.opMark3min 1]).rows 1 = some r2 ∧
      (rowW.notified_new = true → r2.notified_new = true) ∧
      (rowW.notified_3min = true → r2.notified_3min = true) :=
  notified_flags_monotone [Op.opPass cfg0 tknPrices now2 200 true [ev2], Op.opMark3min 1]
    passOne 1 rowW (by decide)

/-- C7: `update_airdrop` overwrites exactly the mutable columns (name, time,
amount, points, price, total_value, type, status, contract_address,
chain_id), bumps `last_updated` to the current time, and leaves the identity
columns (token, date, phase), `first_seen` and the two notified flags of the
row untouched. -/
theorem update_airdrop_frame (st : St) (id : Nat) (a : Event) (p tv : Option Rat)
    (wall : Nat) (r : Row) (h : lookupRow st.rows id = some r) :
    lookupRow (updateAirdrop st id a p tv wall).rows id = some
      { r with name := a.name, time := some (a.time.getD ""),
               amount := some (a.amount.getD ""), points := some (a.points.getD ""),
               price := p, total_value := tv, type := a.type, status := a.status,
               contract_address := a.contract_address, chain_id := a.chain_id,
               last_updated := wall } := by
  rw [updateAirdrop_rows, lookupRow_map_keyed st.rows id id
    (fun x =>
      { x with name := a.name, time := some (a.time.getD ""),
               amount := some (a.amount.getD ""), points := some (a.points.getD ""),
               price := p, total_value := tv, type := a.type, status := a.status,
               contract_address := a.contract_address, chain_id := a.chain_id,
               last_updated := wall })
    (fun x => rfl), h]
  have hid : (r.id == id) = true := by
    have := List.find?_some h
    simpa [lookupRow] using this
  simp only [Option.map, hid]
  rfl

/-- Witness: updating the stored scenario row with the second observation. -/
theorem update_airdrop_frame_witness :
    lookupRow (updateAirdrop passOne 1 ev2 (some 2) (some 100) 200).rows 1 = some
      { rowW with name := ev2.name, time := some (ev2.time.getD ""),
                  amount := some (ev2.amount.getD ""), points := some (ev2.points.getD ""),
                  price := some 2, total_value := some 100, type := ev2.type,
                  status := ev2.status, contract_address := ev2.contract_address,
                  chain_id := ev2.chain_id, last_updated := 200 } :=
  update_airdrop_frame passOne 1 ev2 (some 2) (some 100) 200 rowW (by decide)

/-- C9: the countdown arming scan returns exactly the stored rows whose date
equals today, whose time is non-NULL and non-empty, whose `notified_3min`
flag is unset, and whose parsed `date time` start lies strictly within the
next ten minutes; rows whose `date time` fails to parse are skipped. -/
theorem check_upcoming_spec (st : St) (now : DateTime) (r : Row) :
    r ∈ checkUpcomingAirdrops st now ↔
      (r ∈ st.rows ∧ r.date = some (formatDate now.date) ∧
       (∃ t, r.time = some t ∧ t ≠ "") ∧ r.notified_3min = false ∧
       ∃ dt, strptimeDT (r.date.getD "") (r.time.getD "") = some dt ∧
         0 < toSecZ dt - toSecZ now ∧ toSecZ dt - toSecZ now ≤ 600) := by
  unfold checkUpcomingAirdrops
  rw [List.mem_filterMap]
  constructor
  · rintro ⟨r2, hr2mem, hf⟩
    rw [List.mem_filter] at hr2mem
    obtain ⟨hmem, hp⟩ := hr2mem
    have hr2 : r2 = r ∧ ∃ dt, strptimeDT (r2.date.getD "") (r2.time.getD "") = some dt ∧
        0 < toSecZ dt - toSecZ now ∧ toSecZ dt - toSecZ now ≤ 600 := by
      revert hf
      cases hdt : strptimeDT (r2.date.getD "") (r2.time.getD "") with
      | none => intro hf; exact absurd hf (by simp)
      | some dt =>
        intro hf
        by_cases h1 : 0 < toSecZ dt - toSecZ now
        · by_cases h2 : toSecZ dt - toSecZ now ≤ 600
          · have heq : some r2 = some r := by simpa [h1, h2] using hf
            exact ⟨Option.some.inj heq, dt, rfl, h1, h2⟩
          · exact absurd hf (by simp [h1, h2])
        · exact absurd hf (by simp [h1])
    obtain ⟨heq, dt, hdt, h1, h2⟩ := hr2
    subst heq
    simp only [Bool.and_eq_true] at hp
    obtain ⟨⟨hd, ht⟩, h3⟩ := hp
    refine ⟨hmem, ?_, ?_, ?_, dt, hdt, h1, h2⟩
    · revert hd
      cases r2.date with
      | none => intro hd; cases hd
      | some x =>
        intro hd
        simp only [sqlEqS, beq_iff_eq] at hd
        rw [hd]
    · revert ht
      cases hrt : r2.time with
      | none => intro ht; cases ht
      | some t =>
        intro ht
        simp only [Bool.not_eq_eq_eq_not, Bool.not_true, beq_eq_false_iff_ne, ne_eq] at ht
        exact ⟨t, rfl, ht⟩
    · simpa using h3
  · rintro ⟨hmem, hd, ⟨t, ht, htne⟩, h3, dt, hdt, h1, h2⟩
    refine ⟨r, ?_, ?_⟩
    · rw [List.mem_filter]
      refine ⟨hmem, ?_⟩
      rw [hd, ht]
      simp [sqlEqS, htne, h3]
    · rw [hdt]
      simp [h1, h2]

theorem insertNewAirdrop_rows (w : Nat) (st : St) (a : Event) (p tv : Option Rat) :
    ((insertNewAirdrop w st a p tv).1).rows =
      st.rows ++ [{ insertedRow st a p tv w with notified_new := false }] := rfl

theorem checkAndNotifyNew_known (cfg : Config) (w : Nat) (d : Bool) (st : St)
    (a : Event) (p tv : Option Rat) (r0 : Row)
    (h : getByKey st.rows a.token a.date a.phase = some r0) :
    checkAndNotifyNew cfg w d st a p tv = (st, r0.id, false) := by
  unfold checkAndNotifyNew
  rw [h]

theorem getByKey_after_new (cfg : Config) (w : Nat) (d : Bool) (st : St) (a : Event)
    (p tv : Option Rat) (tk dstr : String) (ph : Int)
    (htk : a.token = some tk) (hdt : a.date = some dstr) (hph : a.phase = some ph)
    (habs : getByKey st.rows a.token a.date a.phase = none) :
    getByKey (checkAndNotifyNew cfg w d st a p tv).1.rows a.token a.date a.phase =
      some (insertedRow st a p tv w) := by
  unfold checkAndNotifyNew
  rw [habs]
  dsimp only
  rw [show (insertNewAirdrop w st a p tv).2 = st.nextId from rfl]
  rw [markNotifiedNew_rows, sendNotification_rows, insertNewAirdrop_rows]
  unfold getByKey
  rw [List.map_append, List.find?_append]
  have hpred : ∀ x : Row,
      ((fun r => sqlEqS r.token a.token && sqlEqS r.date a.date && sqlEqI r.phase a.phase) ∘
        (fun x => if x.id == st.nextId then { x with notified_new := true } else x)) x =
      (fun r => sqlEqS r.token a.token && sqlEqS r.date a.date && sqlEqI r.phase a.phase) x := by
    intro x
    dsimp only [Function.comp]
    split <;> rfl
  have h1 : List.find?
      (fun r => sqlEqS r.token a.token && sqlEqS r.date a.date && sqlEqI r.phase a.phase)
      (st.rows.map (fun x => if x.id == st.nextId then { x with notified_new := true } else x)) =
      none := by
    rw [List.find?_map, funext hpred]
    unfold getByKey at habs
    rw [habs]
    rfl
  rw [h1]
  simp only [Option.none_or, List.map_cons, List.map_nil, List.find?]
  simp [insertedRow, sqlEqS, sqlEqI, htk, hdt, hph]

/-- C10 (implicit): a new-event notification is at-most-once per identity —
`check_and_notify_new` marks `notified_new = 1` after merely attempting the
push (whose delivery outcome it cannot observe, since `send_notification`
swallows every exception and returns `None`), the resulting store does not
depend on whether delivery succeeded, exactly one tagged notification attempt
is recorded, and a repeat observation of the same identity is not treated as
new and sends nothing. -/
theorem new_event_notify_at_most_once (cfg : Config) (st : St) (a : Event)
    (p tv : Option Rat) (w1 w2 : Nat) (d1 d2 : Bool) (tk dstr : String) (ph : Int)
    (htk : a.token = some tk) (hdt : a.date = some dstr) (hph : a.phase = some ph)
    (habs : getByKey st.rows a.token a.date a.phase = none) :
    (∃ row, getByKey (checkAndNotifyNew cfg w1 d1 st a p tv).1.rows a.token a.date a.phase
        = some row ∧ row.notified_new = true) ∧
    (checkAndNotifyNew cfg w1 d1 st a p tv).1.rows =
      (checkAndNotifyNew cfg w1 d2 st a p tv).1.rows ∧
    (∃ n, (checkAndNotifyNew cfg w1 d1 st a p tv).1.sent = st.sent ++ [n] ∧
      n.delivered = d1 ∧ n.tag = "新空投") ∧
    (checkAndNotifyNew cfg w2 d2 (checkAndNotifyNew cfg w1 d1 st a p tv).1 a p tv).2.2 =
      false ∧
    (checkAndNotifyNew cfg w2 d2 (checkAndNotifyNew cfg w1 d1 st a p tv).1 a p tv).1.sent =
      (checkAndNotifyNew cfg w1 d1 st a p tv).1.sent := by
  have hkey := getByKey_after_new cfg w1 d1 st a p tv tk dstr ph htk hdt hph habs
  have hsecond := checkAndNotifyNew_known cfg w2 d2
    (checkAndNotifyNew cfg w1 d1 st a p tv).1 a p tv (insertedRow st a p tv w1) hkey
  refine ⟨⟨insertedRow st a p tv w1, hkey, rfl⟩, ?_, ?_, ?_, ?_⟩
  · unfold checkAndNotifyNew
    rw [habs]
    rfl
  · unfold checkAndNotifyNew
    rw [habs]
    exact ⟨_, rfl, rfl, rfl⟩
  · rw [hsecond]
  · rw [hsecond]

/-- Witness: the first observation of the scenario identity on the empty
store, with a failed first delivery. -/
theorem new_event_notify_at_most_once_witness :
    (∃ row, getByKey (checkAndNotifyNew cfg0 100 false st0 ev1 none none).1.rows
        ev1.token ev1.date ev1.phase = some row ∧ row.notified_new = true) ∧
    (checkAndNotifyNew cfg0 100 false st0 ev1 none none).1.rows =
      (checkAndNotifyNew cfg0 100 true st0 ev1 none none).1.rows ∧
    (∃ n, (checkAndNotifyNew cfg0 100 false st0 ev1 none none).1.sent = st0.sent ++ [n] ∧
      n.delivered = false ∧ n.tag = "新空投") ∧
    (checkAndNotifyNew cfg0 200 true (checkAndNotifyNew cfg0 100 false st0 ev1 none none).1
      ev1 none none).2.2 = false ∧
    (checkAndNotifyNew cfg0 200 true (checkAndNotifyNew cfg0 100 false st0 ev1 none none).1
      ev1 none none).1.sent = (checkAndNotifyNew cfg0 100 false st0 ev1 none none).1.sent :=
  new_event_notify_at_most_once cfg0 st0 ev1 none none 100 200 false true
    "TKN" "2024-01-01" 1 rfl rfl rfl (by decide)

theorem tokenKeyOf_spec (it : Item) :
    (if tokenKeyOf it == "" then none else some (tokenKeyOf it)) =
      firstPresentNonEmpty [it.token, it.symbol, it.address] := by
  unfold tokenKeyOf pyOrS
  cases it.token with
  | none =>
    cases it.symbol with
    | none =>
      cases it.address with
      | none => simp [firstPresentNonEmpty]
      | some v => by_cases hv : v = "" <;> simp [firstPresentNonEmpty, hv]
    | some u =>
      by_cases hu : u = ""
      · subst hu
        cases it.address with
        | none => simp [firstPresentNonEmpty]
        | some v => by_cases hv : v = "" <;> simp [firstPresentNonEmpty, hv]
      · simp [firstPresentNonEmpty, hu]
  | some t =>
    by_cases ht : t = ""
    · subst ht
      cases it.symbol with
      | none =>
        cases it.address with
        | none => simp [firstPresentNonEmpty]
        | some v => by_cases hv : v = "" <;> simp [firstPresentNonEmpty, hv]
      | some u =>
        by_cases hu : u = ""
        · subst hu
          cases it.address with
          | none => simp [firstPresentNonEmpty]
          | some v => by_cases hv : v = "" <;> simp [firstPresentNonEmpty, hv]
        · simp [firstPresentNonEmpty, hu]
    · simp [firstPresentNonEmpty, ht]

/-- C8: the list branch of the price normalization keys every record on the
first of its token, symbol, or address field that is present and non-empty,
and skips exactly the records in which none of these three is present and
non-empty — the code's `or`-chained key expression agrees with the spec's
first-present-non-empty rule on every list payload. -/
theorem prices_dict_keying (items : List Item) :
    buildPricesDict items = buildPricesDictSpec items := by
  unfold buildPricesDict buildPricesDictSpec
  have hfun : (fun (m : List (String × Item)) (it : Item) =>
      let k := tokenKeyOf it
      if k == "" then m else dictInsert m k it) =
      (fun (m : List (String × Item)) (it : Item) =>
        match firstPresentNonEmpty [it.token, it.symbol, it.address] with
        | none => m
        | some k => dictInsert m k it) := by
    funext m it
    dsimp only
    have h := tokenKeyOf_spec it
    by_cases hk : tokenKeyOf it = ""
    · have h2 : firstPresentNonEmpty [it.token, it.symbol, it.address] = none := by
        rw [← h]
        simp [hk]
      simp [hk, h2]
    · have h2 : firstPresentNonEmpty [it.token, it.symbol, it.address] =
          some (tokenKeyOf it) := by
        rw [← h]
        simp [hk]
      simp [hk, h2]
  rw [hfun]

/-- C1 counterexample: in the two-pass scenario (first pass inserts
`(TKN, 2024-01-01, 1)` with empty time and amount, second pass sees time
`10:00`, amount `50`, effective price `2.0`) the audit log receives THREE
entries, not two: the first successful valuation also logs `value_updated`
(stored `total_value` was NULL and the new value `100.0` is positive). -/
theorem two_pass_scenario_cex :
    passTwo.audits.map (fun ad => ad.change_type) =
      ["time_updated", "amount_updated", "value_updated"] ∧
    passTwo.audits.length ≠ 2 := by
  constructor
  · rfl
  · decide

/-- C1 amended: the second pass of the two-pass scenario produces exactly
three audit-log entries (`time_updated`, `amount_updated` and
`value_updated`), batched into one status-update notification, and stores
`total_value = 100.0` (the first pass having stored NULL). -/
theorem two_pass_scenario :
    (lookupRow passOne.rows 1).map (fun r => r.total_value) = some none ∧
    passTwo.audits.map (fun ad => ad.change_type) =
      ["time_updated", "amount_updated", "value_updated"] ∧
    (passTwo.sent.filter (fun n => n.tag == "状态变化")).length = 1 ∧
    (lookupRow passTwo.rows 1).map (fun r => r.total_value) = some (some 100) := by
  refine ⟨rfl, rfl, ?_, rfl⟩
  decide

/-- C2 counterexample: the amount string `-5` is not parseable as a
non-negative decimal, yet `calculate_value` does not fail softly: the gate
strips `-` before its digit test, so with `TKN` priced at `2.0` it returns
`(2.0, -10.0)` instead of `(None, None)`. -/
theorem calculate_value_negative_amount_cex :
    parsesAsNonnegDecimal "-5" = false ∧
    calculateValue (some "-5") "TKN" tknPrices = (some 2, some (-10)) := by
  constructor
  · decide
  · rfl

/-- C2 amended: `calculate_value` returns `(None, None)` exactly when the
amount fails the gate (missing, empty, or — with every `.` and `-` removed —
empty or containing a non-digit; negative and malformed decimals such as `-5`
pass this gate), the token has no lookup entry, or the effective price
(`price` when positive, `dex_price` otherwise) is non-positive; otherwise it
returns the effective price together with `float(amount)` times it, the
second component `None` when that parse fails. -/
theorem calculate_value_characterization (a : Option String) (t : String)
    (ps : List (String × Item)) :
    (calculateValue a t ps = (none, none) ↔
      amountGate a = false ∨ lookupPrice ps t = none ∨
        ∃ info, lookupPrice ps t = some info ∧ effectivePrice info ≤ 0) ∧
    (∀ s info, a = some s → amountGate a = true → lookupPrice ps t = some info →
      0 < effectivePrice info →
      calculateValue a t ps =
        (some (effectivePrice info),
         Option.map (fun q => q * effectivePrice info) (pyFloatParse s))) := by
  cases a with
  | none =>
    constructor
    · simp [calculateValue, amountGate]
    · intro s info heq
      exact absurd heq (by simp)
  | some s =>
    by_cases hse : s = ""
    · subst hse
      constructor
      · simp [calculateValue, amountGate]
      · intro s2 info heq hg
        simp [amountGate] at hg
    · have hse2 : (s == "") = false := by simp [hse]
      by_cases hdig : pyIsdigit (stripDotsDashes s) = true
      · cases hlp : lookupPrice ps t with
        | none =>
          constructor
          · simp [calculateValue, amountGate, hse2, hdig, hlp]
          · intro s2 info heq hg hlp2
            exact absurd hlp2 (by simp)
        | some info =>
          have heff : effectivePrice info =
              (if Rat.blt 0 info.price then info.price else info.dex_price) := rfl
          by_cases hf : Rat.blt 0 (if Rat.blt 0 info.price then info.price else info.dex_price) = true
          · constructor
            · constructor
              · intro h
                exfalso
                rw [calculateValue] at h
                simp only [hse2, hdig, hlp, Bool.not_true, Bool.false_eq_true, if_false,
                  hf, Bool.not_eq_true'] at h
                revert h
                cases pyFloatParse s <;> simp
              · rintro (h | h | ⟨info2, hinfo2, hle⟩)
                · rw [amountGate] at h
                  simp [hse2, hdig] at h
                · exact absurd h (by simp)
                · injection hinfo2 with hinfo2
                  subst hinfo2
                  rw [heff] at hle
                  exact absurd hf (by simpa using hle)
            · intro s2 info2 heq hg hlp2 hpos
              injection heq with heq
              subst heq
              injection hlp2 with hlp2
              subst hlp2
              rw [calculateValue]
              simp only [hse2, hdig, hlp, Bool.not_true, Bool.false_eq_true, if_false, hf,
                Bool.not_eq_true']
              rw [heff]
              cases pyFloatParse s <;> simp
          · have hf2 : Rat.blt 0 (if Rat.blt 0 info.price then info.price else info.dex_price) = false :=
              by simpa using hf
            constructor
            · constructor
              · intro _
                exact Or.inr (Or.inr ⟨info, rfl, by rw [heff]; exact hf2⟩)
              · intro _
                rw [calculateValue]
                simp [hse2, hdig, hlp, hf2]
            · intro s2 info2 heq hg hlp2 hpos
              injection hlp2 with hlp2
              subst hlp2
              rw [heff] at hpos
              exact absurd hpos (by simpa using hf)
      · have hdig2 : pyIsdigit (stripDotsDashes s) = false := by simpa using hdig
        constructor
        · constructor
          · intro _
            exact Or.inl (by simp [amountGate, hse2, hdig2])
          · intro _
            rw [calculateValue]
            simp [hse2, hdig2]
        · intro s2 info heq hg
          injection heq with heq
          subst heq
          rw [amountGate] at hg
          simp [hse2, hdig2] at hg

/-- C5: `is_airdrop_expired` implements exactly the spec's case analysis:
unparseable date is never expired; empty time and non-`H:MM`-shaped time
compare dates only; a strictly-shaped time compares full instants, falling
back to the date-only comparison when the timestamp construction fails. -/
theorem is_airdrop_expired_cases (a : Event) (now : DateTime) :
    isAirdropExpired a now = isAirdropExpiredSpec a now := by
  unfold isAirdropExpired isAirdropExpiredSpec
  cases hd : a.date with
  | none => rfl
  | some ds =>
    by_cases hds : ds = ""
    · subst hds
      have hp : parseDate "" = none := by decide
      simp [hp]
    · have hds2 : (ds == "") = false := by simp [hds]
      simp only [hds2, Bool.false_eq_true, if_false]
      cases hp : parseDate ds with
      | none => simp
      | some ad =>
        by_cases hts : pyStrip (a.time.getD "") = ""
        · have h1 : (pyStrip (a.time.getD "") != "") = false := by simp [hts]
          simp [h1, hts]
        · have hts0 : a.time.getD "" ≠ "" := by
            intro h
            rw [h] at hts
            exact hts (by decide)
          simp only [hts, hts0, ne_eq, not_false_iff, bne_iff_ne, if_true, beq_iff_eq,
            if_false, Bool.and_self]
          by_cases hsm : isStrictHM (pyStrip (a.time.getD "")) = true <;>
            simp [hsm, hts, hts0]

/-- Witness for the characterization at amount `50`, token `TKN`, price
`2.0`. -/
theorem calculate_value_characterization_witness :
    calculateValue (some "50") "TKN" tknPrices =
      (some (effectivePrice ⟨some "TKN", none, none, 2, 0⟩),
       Option.map (fun q => q * effectivePrice ⟨some "TKN", none, none, 2, 0⟩)
         (pyFloatParse "50")) :=
  (calculate_value_characterization (some "50") "TKN" tknPrices).2 "50"
    ⟨some "TKN", none, none, 2, 0⟩ rfl (by decide) (by decide)
    (show Rat.blt 0 (effectivePrice ⟨some "TKN", none, none, 2, 0⟩) = true by decide)

end Theorems

end AirdropMonitor
